import Mathlib

/-!
Verification of the Eltako Home Assistant integration
(`custom_components/eltako`): a shallow embedding of `switch.py`,
`__init__.py` and `datetime.py`, with theorems about the behaviour of
the switch entity, the gateway setup/unload lifecycle and the datetime
entity's restore logic.

External collaborators (the `eltakobus` codec library, the Home
Assistant framework) and repository modules that are not part of the
three embedded files (`device.py`, `gateway.py`, `config_helpers.py`,
`const.py`) are modelled abstractly; each such definition carries a doc
comment saying what it stands for.
-/

namespace Eltako

/-- An `eltakobus.util.AddressExpression`: a device/base address (a byte
tuple) together with an optional discriminator string such as "left" or
"right" for multi-rocker senders.  In Python it is the pair
`(address, discriminator)` and `dev_id[1]` is the discriminator. -/
structure AddressExpression where
  address : List Nat
  discriminator : Option String
deriving DecidableEq, Repr

/-- The EEP profile identifiers imported by `switch.py` from
`eltakobus.eep`.  The code compares profile classes by identity
(`self._sender_eep in [F6_02_01, F6_02_02]`), so profiles are modelled
as an enumeration; `other` stands for any further profile class. -/
inductive EEP where
  | F6_02_01
  | F6_02_02
  | A5_38_08
  | M5_38_08
  | other (s : String)
deriving DecidableEq, Repr

/-- The decoded telegram returned by `dev_eep.decode_message(msg)`.
Depending on the profile the switch code reads `decoded.state`
(M5_38_08) or `decoded.rocker_first_action` and `decoded.energy_bow`
(F6_02_01 / F6_02_02); the record carries all three fields and the
branch on `dev_eep` selects which ones are meaningful. -/
structure Decoded where
  state : Bool
  rocker_first_action : Nat
  energy_bow : Bool
deriving DecidableEq, Repr

/-- The state of an `EltakoSwitch` entity that its methods read or
write: the fields set in `__init__` plus `_attr_is_on` and the
`general_settings[CONF_FAST_STATUS_CHANGE]` flag consulted by
`turn_on` / `turn_off`. -/
structure SwitchState where
  dev_id : AddressExpression
  dev_eep : EEP
  sender_id : AddressExpression
  sender_eep : EEP
  attr_is_on : Bool
  fast_status_change : Bool
deriving DecidableEq, Repr

/-- Result of one `EltakoSwitch.value_changed` call: the value of
`_attr_is_on` afterwards, whether `schedule_update_ha_state()` was
called, and whether a warning was logged. -/
structure ValueChangedResult where
  attr_is_on : Bool
  scheduled : Bool
  warned : Bool
deriving DecidableEq, Repr

/-- Embedding of `EltakoSwitch.value_changed` (switch.py lines
170-210).  `decodeResult` is the outcome of
`self.dev_eep.decode_message(msg)`: `none` when the call raised an
exception, `some decoded` otherwise.  The method never re-raises: the
`except` branch logs a warning and returns. -/
def value_changed (s : SwitchState) (decodeResult : Option Decoded) :
    ValueChangedResult :=
  match decodeResult with
  | none =>
      { attr_is_on := s.attr_is_on, scheduled := false, warned := true }
  | some decoded =>
      if s.dev_eep = EEP.M5_38_08 then
        { attr_is_on := decoded.state, scheduled := true, warned := false }
      else if s.dev_eep = EEP.F6_02_01 ∨ s.dev_eep = EEP.F6_02_02 then
        let bf1 := s.dev_id.discriminator = none
        let bf2 := s.dev_id.discriminator ≠ none ∧
          s.dev_id.discriminator = some "left" ∧
          decoded.rocker_first_action = 1
        let bf3 := s.dev_id.discriminator ≠ none ∧
          s.dev_id.discriminator = some "right" ∧
          decoded.rocker_first_action = 3
        if (bf1 ∨ bf2 ∨ bf3) ∧ decoded.energy_bow = true then
          { attr_is_on := !s.attr_is_on, scheduled := true, warned := false }
        else
          { attr_is_on := s.attr_is_on, scheduled := false, warned := false }
      else
        { attr_is_on := s.attr_is_on, scheduled := false, warned := true }

/-- An outbound frame as built by `turn_on` / `turn_off` and handed to
`self.send_message`: either an `F6_02_01(a1, a2, a3, a4)` rocker frame
(`a2` is the energy bow: 1 = pressed, 0 = released) encoded for an
address, or an `A5_38_08(command, CentralCommandSwitching(c1..c5))`
central-command frame.  `send_message` (device.py) submits the frame to
the gateway's send queue; the list of frames records the submission
order. -/
inductive OutFrame where
  | f6 (a1 a2 a3 a4 : Nat) (address : List Nat)
  | a5 (command c1 c2 c3 c4 c5 : Nat) (address : List Nat)
deriving DecidableEq, Repr

/-- Result of one `turn_on` / `turn_off` call: the frames submitted for
sending in order, the value of `_attr_is_on` afterwards, whether
`schedule_update_ha_state()` was called, and whether the unsupported-EEP
warning was logged. -/
structure TurnResult where
  sent : List OutFrame
  attr_is_on : Bool
  scheduled : Bool
  warned : Bool
deriving DecidableEq, Repr

/-- The rocker action chosen by `turn_on` from the sender
discriminator: 1 for "left", 3 for "right", 1 otherwise. -/
def turn_on_action (discriminator : Option String) : Nat :=
  if discriminator = some "left" then 1
  else if discriminator = some "right" then 3
  else 1

/-- The rocker action chosen by `turn_off` from the sender
discriminator: 0 for "left", 2 for "right", 0 otherwise. -/
def turn_off_action (discriminator : Option String) : Nat :=
  if discriminator = some "left" then 0
  else if discriminator = some "right" then 2
  else 0

/-- Embedding of `EltakoSwitch.turn_on` (switch.py lines 98-132). -/
def turn_on (s : SwitchState) : TurnResult :=
  let address := s.sender_id.address
  let discriminator := s.sender_id.discriminator
  if s.sender_eep = EEP.F6_02_01 ∨ s.sender_eep = EEP.F6_02_02 then
    let action := turn_on_action discriminator
    let pressed_msg := OutFrame.f6 action 1 0 0 address
    let released_msg := OutFrame.f6 action 0 0 0 address
    let sent := [pressed_msg, released_msg]
    if s.fast_status_change then
      { sent := sent, attr_is_on := true, scheduled := true, warned := false }
    else
      { sent := sent, attr_is_on := s.attr_is_on, scheduled := false,
        warned := false }
  else if s.sender_eep = EEP.A5_38_08 then
    let msg := OutFrame.a5 1 0 1 0 0 1 address
    if s.fast_status_change then
      { sent := [msg], attr_is_on := true, scheduled := true, warned := false }
    else
      { sent := [msg], attr_is_on := s.attr_is_on, scheduled := false,
        warned := false }
  else
    { sent := [], attr_is_on := s.attr_is_on, scheduled := false,
      warned := true }

/-- Embedding of `EltakoSwitch.turn_off` (switch.py lines 134-168). -/
def turn_off (s : SwitchState) : TurnResult :=
  let address := s.sender_id.address
  let discriminator := s.sender_id.discriminator
  if s.sender_eep = EEP.F6_02_01 ∨ s.sender_eep = EEP.F6_02_02 then
    let action := turn_off_action discriminator
    let pressed_msg := OutFrame.f6 action 1 0 0 address
    let released_msg := OutFrame.f6 action 0 0 0 address
    let sent := [pressed_msg, released_msg]
    if s.fast_status_change then
      { sent := sent, attr_is_on := false, scheduled := true, warned := false }
    else
      { sent := sent, attr_is_on := s.attr_is_on, scheduled := false,
        warned := false }
  else if s.sender_eep = EEP.A5_38_08 then
    let msg := OutFrame.a5 1 0 1 0 0 0 address
    if s.fast_status_change then
      { sent := [msg], attr_is_on := false, scheduled := true, warned := false }
    else
      { sent := [msg], attr_is_on := s.attr_is_on, scheduled := false,
        warned := false }
  else
    { sent := [], attr_is_on := s.attr_is_on, scheduled := false,
      warned := true }

/-- Value of one hexadecimal digit, `none` for any other character. -/
def hexVal (c : Char) : Option Nat :=
  if c.isDigit then some (c.toNat - 48)
  else if 97 ≤ c.toNat ∧ c.toNat ≤ 102 then some (c.toNat - 87)
  else if 65 ≤ c.toNat ∧ c.toNat ≤ 70 then some (c.toNat - 55)
  else none

/-- Splits a character list at every dash, like Python's
`split("-")`. -/
def splitDashes : List Char → List (List Char)
  | [] => [[]]
  | c :: rest =>
      let r := splitDashes rest
      if c = '-' then [] :: r
      else
        match r with
        | [] => [[c]]
        | grp :: gs => (c :: grp) :: gs

/-- One two-hex-digit byte of an address string, `none` when
malformed. -/
def parseByte (cs : List Char) : Option Nat :=
  match cs with
  | [hi, lo] =>
      match hexVal hi, hexVal lo with
      | some a, some b => some (16 * a + b)
      | _, _ => none
  | _ => none

/-- Modelled from the spec: `AddressExpression.parse` of the external
`eltakobus` codec, which `async_setup_entry` applies to the configured
base id.  Per the spec an address is an opaque fixed-width identifier
written as dash-separated hex byte pairs such as "00-00-00-01"; a
malformed string makes the parser raise, modelled as `none`. -/
def AddressExpression.parse (s : String) : Option AddressExpression :=
  match (splitDashes s.toList).mapM parseByte with
  | some bs =>
      if bs.length = 4 then some { address := bs, discriminator := none }
      else none
  | none => none

/-- Modelled from the spec: the gateway device types of `const.py`
(not under src/) distinguish serial transceivers from the network (LAN)
gateway. -/
inductive GatewayDeviceType where
  | LAN
  | serialTransceiver
deriving DecidableEq, Repr

/-- Modelled from the spec: `GatewayDeviceType.find` (const.py, not
under src/) resolves the configured device-type string to a device
type, `none` for an unsupported string. -/
def GatewayDeviceType.find (s : String) : Option GatewayDeviceType :=
  if s = "lan" then some GatewayDeviceType.LAN
  else if s = "serial" then some GatewayDeviceType.serialTransceiver
  else none

/-- Modelled from the spec: `config_helpers.config_check_gateway`
(config_helpers.py, not under src/) checks that the configured gateway
ids are unique; it is `false` exactly when some id occurs twice. -/
def config_check_gateway : List Nat → Bool
  | [] => true
  | gid :: rest => !(rest.contains gid) && config_check_gateway rest

/-- One registered inbound listener of a gateway (address plus an
abstract callback identifier). -/
structure ListenerReg where
  address : AddressExpression
  callback : Nat
deriving DecidableEq, Repr

/-- The state of an `EnOceanGateway` object (gateway.py, not under
src/) as far as the embedded lifecycle code touches it: its display
name `dev_name` (the registry key used by `_set_gateway_to_hass`),
whether its Transport is open, and its registered listeners. -/
structure GatewayRecord where
  dev_name : String
  transport_open : Bool
  listeners : List ListenerReg
deriving DecidableEq, Repr

/-- Modelled from the spec: `EnOceanGateway.unload` (gateway.py, not
under src/) — destroying a gateway at unload closes its Transport and
clears all its listeners. -/
def GatewayRecord.unload (g : GatewayRecord) : GatewayRecord :=
  { g with transport_open := false, listeners := [] }

/-- The gateway registry `hass.data[DATA_ELTAKO]`: a Python dict from
string keys to gateways, embedded as an association list. -/
def GatewayRegistry := List (String × GatewayRecord)

/-- Python dict assignment `reg[k] = v`. -/
def dictSet (reg : GatewayRegistry) (k : String) (v : GatewayRecord) :
    GatewayRegistry :=
  (k, v) :: (reg.filter fun p => !(p.1 == k))

/-- Python dict lookup `reg[k]`; a missing key raises KeyError,
embedded as `none`. -/
def dictGet (reg : GatewayRegistry) (k : String) : Option GatewayRecord :=
  (reg.find? fun p => p.1 == k).map Prod.snd

/-- Python `del reg[k]`: removes the entry under `k`. -/
def dictDel (reg : GatewayRegistry) (k : String) : GatewayRegistry :=
  reg.filter fun p => !(p.1 == k)

/-- Embedding of `_set_gateway_to_hass` (`__init__.py` lines 49-50):
stores the gateway keyed by its own `dev_name`. -/
def set_gateway_to_hass (reg : GatewayRegistry) (g : GatewayRecord) :
    GatewayRegistry :=
  dictSet reg g.dev_name g

/-- Embedding of `get_gateway_from_hass` (`__init__.py` lines 42-46):
looks the gateway up under the config entry's
`CONF_GATEWAY_DESCRIPTION` value; a missing key raises KeyError,
embedded as `none`. -/
def get_gateway_from_hass (reg : GatewayRegistry)
    (gateway_description : String) : Option GatewayRecord :=
  dictGet reg gateway_description

/-- The integration domain constant `DOMAIN` of `const.py`. -/
def DOMAIN : String := "eltako"

/-- The gateway section of `configuration.yaml` found by
`async_find_gateway_config_by_id`, restricted to the fields
`async_setup_entry` reads on the paths the claims are about: the
device-type string, the optional gateway address (`CONF_GATEWAY_ADDRESS`)
and the base-id string (`CONF_BASE_ID`). -/
structure GatewayConfig where
  device_type : String
  gateway_address : Option String
  base_id : String
deriving DecidableEq, Repr

/-- The inputs `async_setup_entry` branches on: the config entry's
domain, the configured gateway ids (input of the uniqueness check), the
entry's `CONF_GATEWAY_DESCRIPTION` and `CONF_SERIAL_PATH` values
(`none` when the key is absent), and the gateway configuration section
found for the entry's gateway id (`none` when there is none). -/
structure SetupInput where
  domain : String
  gateway_ids : List Nat
  gateway_description : Option String
  serial_path : Option String
  gateway_config : Option GatewayConfig
deriving DecidableEq, Repr

/-- How one `async_setup_entry` call ends: `success` is the final
`return True` (gateway constructed, registered and platforms
forwarded); `earlyReturn` covers the plain `return` / `return False`
warning paths; `configError` is an exception raised out of the
function (the spec's `ConfigError`). -/
inductive SetupOutcome where
  | success
  | earlyReturn
  | configError (msg : String)
deriving DecidableEq, Repr

/-- Result of one `async_setup_entry` call: its outcome and how many
`EnOceanGateway` objects were constructed during the call. -/
structure SetupResult where
  outcome : SetupOutcome
  created : Nat
deriving DecidableEq, Repr

/-- Embedding of `async_setup_entry` (`__init__.py` lines 62-175),
following the source's check order: domain, gateway-id uniqueness
(raises), gateway description present, description contains "(" and
")", gateway config found, serial path present, device type supported,
LAN gateway address present (raises), base id parses (the parser's
exception propagates), and only then `EnOceanGateway` construction and
registration. -/
def async_setup_entry (inp : SetupInput) : SetupResult :=
  if inp.domain ≠ DOMAIN then { outcome := .earlyReturn, created := 0 }
  else if config_check_gateway inp.gateway_ids = false then
    { outcome := .configError "Gateway Ids are not unique.", created := 0 }
  else
    match inp.gateway_description with
    | none => { outcome := .earlyReturn, created := 0 }
    | some desc =>
      if !(desc.toList.contains '(' && desc.toList.contains ')') then
        { outcome := .earlyReturn, created := 0 }
      else
        match inp.gateway_config with
        | none => { outcome := .earlyReturn, created := 0 }
        | some gcfg =>
          match inp.serial_path with
          | none => { outcome := .earlyReturn, created := 0 }
          | some _ =>
            match GatewayDeviceType.find gcfg.device_type with
            | none => { outcome := .earlyReturn, created := 0 }
            | some dt =>
              if dt = GatewayDeviceType.LAN ∧ gcfg.gateway_address = none then
                { outcome :=
                    .configError "Missing field gateway_address for LAN Gateway",
                  created := 0 }
              else
                match AddressExpression.parse gcfg.base_id with
                | none =>
                    { outcome := .configError "invalid base id", created := 0 }
                | some _ => { outcome := .success, created := 1 }

/-- Embedding of `async_unload_entry` (`__init__.py` lines 178-187):
looks the gateway up under the entry's description, calls
`gateway.unload()`, deletes the registry entry under the gateway's
`dev_name` and returns True.  A failing lookup raises KeyError,
embedded as `none`; otherwise the result is the registry afterwards,
the gateway object's state afterwards, and the returned boolean. -/
def async_unload_entry (reg : GatewayRegistry)
    (gateway_description : String) :
    Option (GatewayRegistry × GatewayRecord × Bool) :=
  match get_gateway_from_hass reg gateway_description with
  | none => none
  | some gateway =>
      some (dictDel reg gateway.dev_name, gateway.unload, true)

/-- The identifying configuration of one actuator entity: its device
id and its sender id, the pair `validate_actuators_dev_and_sender_id`
checks for duplicates. -/
structure EntityIds where
  dev_id : AddressExpression
  sender_id : AddressExpression
deriving DecidableEq, Repr

/-- Modelled from the spec: `validate_actuators_dev_and_sender_id`
(device.py, not under src/) runs over the full entity list and reports
every pair of entities claiming the same (device id, sender id) pair,
not only the first conflict found. -/
def validate_actuators_dev_and_sender_id :
    List EntityIds → List (EntityIds × EntityIds)
  | [] => []
  | e :: rest =>
      ((rest.filter fun f =>
          f.dev_id == e.dev_id && f.sender_id == e.sender_id).map
        fun f => (e, f))
      ++ validate_actuators_dev_and_sender_id rest

/-- One observable step of a platform `async_setup_entry` run:
constructing an entity, logging the could-not-load warning for a bad
entity configuration, the single validation call over the built list,
the `log_entities_to_be_added` call, and handing the list to
`async_add_entities`. -/
inductive PlatformStep where
  | built (e : EntityIds)
  | warnedConfig
  | validated (conflicts : List (EntityIds × EntityIds))
  | logged
  | added (es : List EntityIds)
deriving DecidableEq, Repr

/-- Whether a step is the validation call. -/
def isValidateStep : PlatformStep → Bool
  | PlatformStep.validated _ => true
  | _ => false

/-- Whether a step hands entities to `async_add_entities`. -/
def isAddedStep : PlatformStep → Bool
  | PlatformStep.added _ => true
  | _ => false

/-- The per-entity loop of switch.py lines 51-73: each configuration
entry either yields a switch entity or raises while being parsed
(`DeviceConf` / `get_device_conf`), in which case the `except` branch
logs and the entry is skipped.  An entry is embedded as `some e` when
parsing succeeds and `none` when it raises.  Returns the entity list
and the trace of steps. -/
def buildSwitchEntities :
    List (Option EntityIds) → List EntityIds × List PlatformStep
  | [] => ([], [])
  | none :: rest =>
      let r := buildSwitchEntities rest
      (r.1, PlatformStep.warnedConfig :: r.2)
  | some e :: rest =>
      let r := buildSwitchEntities rest
      (e :: r.1, PlatformStep.built e :: r.2)

/-- Embedding of the switch platform `async_setup_entry` (switch.py
lines 39-77): build the entity list, then validate it once, log the
entities to be added, and add them. -/
def switch_async_setup_entry (cfgs : List (Option EntityIds)) :
    List PlatformStep :=
  let r := buildSwitchEntities cfgs
  r.2 ++
    [PlatformStep.validated (validate_actuators_dev_and_sender_id r.1),
     PlatformStep.logged, PlatformStep.added r.1]

/-- A Python positional call: it raises TypeError unless the number of
arguments supplied equals the function's parameter count. -/
def pyCall (param_count args_given : Nat) (result : α) : Option α :=
  if args_given = param_count then some result else none

/-- Outcome of the datetime platform `async_setup_entry`: a normal
return or a TypeError propagating out of it. -/
inductive PlatformOutcome where
  | completed
  | raisedTypeError
deriving DecidableEq, Repr

/-- Embedding of the datetime platform `async_setup_entry`
(datetime.py lines 27-45).  Line 34 calls
`get_device_config_for_gateway(hass, config_entry, gateway)` with
three positional arguments, while `__init__.py` line 53 declares the
function with the two parameters `(hass, gateway)`; the call is
embedded through `pyCall 2 3`.  Only if that call returned would the
function build the single `GatewayLastReceivedMessage` entity `gw`,
validate the list and add it. -/
def datetime_async_setup_entry (gw : EntityIds) :
    List PlatformStep × PlatformOutcome :=
  match pyCall 2 3 () with
  | none => ([], PlatformOutcome.raisedTypeError)
  | some _ =>
      ([PlatformStep.built gw,
        PlatformStep.validated (validate_actuators_dev_and_sender_id [gw]),
        PlatformStep.logged, PlatformStep.added [gw]],
       PlatformOutcome.completed)

/-- Result of one `GatewayLastReceivedMessage.load_value_initially`
call: either a normal return with the new `_attr_native_value` and
whether an HA state update was scheduled, or a re-raised exception
together with the native value it left behind. -/
inductive LoadResult where
  | ok (native_value : Option Nat) (scheduled : Bool)
  | raised (native_value : Option Nat)
deriving DecidableEq, Repr

/-- Embedding of `GatewayLastReceivedMessage.load_value_initially`
(datetime.py lines 62-82).  `strptime` stands for the
`datetime.strptime(latest_state.state, "%Y-%m-%dT%H:%M:%S%z:%f")`
call: `some t` when it returns a timestamp, `none` when it raises (in
the source it always raises, since the module-level `datetime` has no
`strptime` attribute, and an unparseable string would raise too).  The
`except` branch stores `None` into `_attr_native_value` and re-raises,
so the state update at the end is only scheduled on the normal path. -/
def load_value_initially (strptime : String → Option Nat)
    (latest_state : String) : LoadResult :=
  if latest_state = "unknown" then LoadResult.ok none true
  else
    match strptime latest_state with
    | some t => LoadResult.ok (some t) true
    | none => LoadResult.raised none

/-- C1: when decoding an inbound telegram under the listener's own
device profile raises an exception, `EltakoSwitch.value_changed` logs a
warning and returns: the exception is not propagated (the function is
total), `_attr_is_on` is unchanged and no HA state update is
scheduled. -/
theorem value_changed_decode_failure_drops (s : SwitchState) :
    value_changed s none =
      { attr_is_on := s.attr_is_on, scheduled := false, warned := true } :=
  rfl

/-- C2: for a successfully decoded telegram under a rocker device
profile, a listener with discriminator `none` accepts any rocker side,
"left" accepts exactly `rocker_first_action = 1`, "right" exactly
`rocker_first_action = 3`; an accepted press (energy bow set) toggles
`_attr_is_on`, everything else leaves the switch unchanged. -/
theorem value_changed_rocker_discriminator_filter (s : SwitchState)
    (d : Decoded)
    (h : s.dev_eep = EEP.F6_02_01 ∨ s.dev_eep = EEP.F6_02_02) :
    (s.dev_id.discriminator = none →
      value_changed s (some d) =
        if d.energy_bow = true then
          { attr_is_on := !s.attr_is_on, scheduled := true, warned := false }
        else
          { attr_is_on := s.attr_is_on, scheduled := false, warned := false })
    ∧ (s.dev_id.discriminator = some "left" →
      value_changed s (some d) =
        if d.rocker_first_action = 1 ∧ d.energy_bow = true then
          { attr_is_on := !s.attr_is_on, scheduled := true, warned := false }
        else
          { attr_is_on := s.attr_is_on, scheduled := false, warned := false })
    ∧ (s.dev_id.discriminator = some "right" →
      value_changed s (some d) =
        if d.rocker_first_action = 3 ∧ d.energy_bow = true then
          { attr_is_on := !s.attr_is_on, scheduled := true, warned := false }
        else
          { attr_is_on := s.attr_is_on, scheduled := false, warned := false }) := by
  refine ⟨fun hd => ?_, fun hd => ?_, fun hd => ?_⟩
  · rcases h with h | h <;>
      by_cases hb : d.energy_bow = true <;>
      simp [value_changed, h, hd, hb]
  · rcases h with h | h <;>
      by_cases ha : d.rocker_first_action = 1 <;>
      by_cases hb : d.energy_bow = true <;>
      simp [value_changed, h, hd, ha, hb]
  · rcases h with h | h <;>
      by_cases ha : d.rocker_first_action = 3 <;>
      by_cases hb : d.energy_bow = true <;>
      simp [value_changed, h, hd, ha, hb]

/-- Witness for C2: a "left" listener on profile F6_02_01 receiving a
left-side press (rocker_first_action 1, energy bow set) toggles from
off to on. -/
theorem value_changed_rocker_discriminator_filter_witness :
    value_changed
      { dev_id := { address := [0, 0, 0, 5], discriminator := some "left" },
        dev_eep := EEP.F6_02_01,
        sender_id := { address := [0, 0, 0, 1], discriminator := none },
        sender_eep := EEP.F6_02_01,
        attr_is_on := false, fast_status_change := false }
      (some { state := false, rocker_first_action := 1, energy_bow := true }) =
      { attr_is_on := true, scheduled := true, warned := false } := by
  have h :=
    (value_changed_rocker_discriminator_filter
      { dev_id := { address := [0, 0, 0, 5], discriminator := some "left" },
        dev_eep := EEP.F6_02_01,
        sender_id := { address := [0, 0, 0, 1], discriminator := none },
        sender_eep := EEP.F6_02_01,
        attr_is_on := false, fast_status_change := false }
      { state := false, rocker_first_action := 1, energy_bow := true }
      (Or.inl rfl)).2.1 rfl
  simpa using h

/-- C6: with a rocker sender profile, `turn_on` and `turn_off` each
submit exactly two frames, and the button-pressed frame (energy bow 1)
is submitted strictly before the button-released frame (energy bow 0)
of the same rocker action and address. -/
theorem turn_rocker_sends_pressed_then_released (s : SwitchState)
    (h : s.sender_eep = EEP.F6_02_01 ∨ s.sender_eep = EEP.F6_02_02) :
    (turn_on s).sent =
      [OutFrame.f6 (turn_on_action s.sender_id.discriminator) 1 0 0
        s.sender_id.address,
       OutFrame.f6 (turn_on_action s.sender_id.discriminator) 0 0 0
        s.sender_id.address]
    ∧ (turn_off s).sent =
      [OutFrame.f6 (turn_off_action s.sender_id.discriminator) 1 0 0
        s.sender_id.address,
       OutFrame.f6 (turn_off_action s.sender_id.discriminator) 0 0 0
        s.sender_id.address] := by
  rcases h with h | h <;>
    constructor <;>
    by_cases hf : s.fast_status_change <;>
    simp [turn_on, turn_off, h, hf]

/-- Witness for C6: a concrete F6_02_02 sender with discriminator
"right" submits the pressed frame first, then the released frame. -/
theorem turn_rocker_sends_pressed_then_released_witness :
    (turn_on
      { dev_id := { address := [0, 0, 0, 5], discriminator := none },
        dev_eep := EEP.M5_38_08,
        sender_id := { address := [0, 0, 0, 1], discriminator := some "right" },
        sender_eep := EEP.F6_02_02,
        attr_is_on := false, fast_status_change := true }).sent =
      [OutFrame.f6 3 1 0 0 [0, 0, 0, 1], OutFrame.f6 3 0 0 0 [0, 0, 0, 1]] := by
  have h :=
    (turn_rocker_sends_pressed_then_released
      { dev_id := { address := [0, 0, 0, 5], discriminator := none },
        dev_eep := EEP.M5_38_08,
        sender_id := { address := [0, 0, 0, 1], discriminator := some "right" },
        sender_eep := EEP.F6_02_02,
        attr_is_on := false, fast_status_change := true }
      (Or.inr rfl)).1
  simpa [turn_on_action] using h

/-- C9: with a sender profile that is none of F6_02_01, F6_02_02 and
A5_38_08, `turn_on` and `turn_off` send nothing, log the
unsupported-EEP warning and return early: `_attr_is_on` keeps its prior
value even when fast status change is enabled, and no HA state update
is scheduled. -/
theorem turn_unsupported_sender_eep_noop (s : SwitchState)
    (h1 : s.sender_eep ≠ EEP.F6_02_01) (h2 : s.sender_eep ≠ EEP.F6_02_02)
    (h3 : s.sender_eep ≠ EEP.A5_38_08) :
    turn_on s =
      { sent := [], attr_is_on := s.attr_is_on, scheduled := false,
        warned := true }
    ∧ turn_off s =
      { sent := [], attr_is_on := s.attr_is_on, scheduled := false,
        warned := true } := by
  constructor <;> simp [turn_on, turn_off, h1, h2, h3]

/-- Witness for C9: a sender profile M5_38_08 with fast status change
enabled sends nothing and leaves the switch on. -/
theorem turn_unsupported_sender_eep_noop_witness :
    turn_on
      { dev_id := { address := [0, 0, 0, 5], discriminator := none },
        dev_eep := EEP.M5_38_08,
        sender_id := { address := [0, 0, 0, 1], discriminator := none },
        sender_eep := EEP.M5_38_08,
        attr_is_on := true, fast_status_change := true } =
      { sent := [], attr_is_on := true, scheduled := false, warned := true } := by
  have h :=
    (turn_unsupported_sender_eep_noop
      { dev_id := { address := [0, 0, 0, 5], discriminator := none },
        dev_eep := EEP.M5_38_08,
        sender_id := { address := [0, 0, 0, 1], discriminator := none },
        sender_eep := EEP.M5_38_08,
        attr_is_on := true, fast_status_change := true }
      (by decide) (by decide) (by decide)).1
  simpa using h

/-- C3: `async_setup_entry` aborts by raising (the spec's
`ConfigError`) both when the configured gateway ids are not unique and
when a LAN gateway's configuration lacks the gateway-address field; in
both cases no `EnOceanGateway` is constructed and setup does not
complete. -/
theorem async_setup_entry_config_errors (inp : SetupInput)
    (hdom : inp.domain = DOMAIN) :
    (config_check_gateway inp.gateway_ids = false →
      async_setup_entry inp =
        { outcome := SetupOutcome.configError "Gateway Ids are not unique.",
          created := 0 })
    ∧ (∀ desc gcfg sp,
      config_check_gateway inp.gateway_ids = true →
      inp.gateway_description = some desc →
      (desc.toList.contains '(' && desc.toList.contains ')') = true →
      inp.gateway_config = some gcfg →
      inp.serial_path = some sp →
      GatewayDeviceType.find gcfg.device_type = some GatewayDeviceType.LAN →
      gcfg.gateway_address = none →
      async_setup_entry inp =
        { outcome :=
            SetupOutcome.configError
              "Missing field gateway_address for LAN Gateway",
          created := 0 }) := by
  constructor
  · intro h
    simp [async_setup_entry, hdom, h]
  · intro desc gcfg sp hids hdesc hpar hcfg hsp hdt haddr
    simp at hpar
    simp [async_setup_entry, hdom, hids, hdesc, hpar, hcfg, hsp, hdt, haddr]

/-- Witness for C3: duplicate gateway ids `[1, 1]` raise the
uniqueness error; a LAN gateway section with no gateway address raises
the missing-field error. -/
theorem async_setup_entry_config_errors_witness :
    async_setup_entry
      { domain := "eltako", gateway_ids := [1, 1], gateway_description := none,
        serial_path := none, gateway_config := none } =
      { outcome := SetupOutcome.configError "Gateway Ids are not unique.",
        created := 0 }
    ∧ async_setup_entry
      { domain := "eltako", gateway_ids := [1, 2],
        gateway_description := some "FAM14 (00-00-00-01)",
        serial_path := some "/dev/ttyUSB0",
        gateway_config := some
          { device_type := "lan", gateway_address := none,
            base_id := "00-00-00-01" } } =
      { outcome :=
          SetupOutcome.configError
            "Missing field gateway_address for LAN Gateway",
        created := 0 } := by
  constructor
  · exact (async_setup_entry_config_errors _ rfl).1 (by decide)
  · exact (async_setup_entry_config_errors _ rfl).2 "FAM14 (00-00-00-01)"
      { device_type := "lan", gateway_address := none,
        base_id := "00-00-00-01" }
      "/dev/ttyUSB0" (by decide) rfl (by decide) rfl rfl rfl rfl

/-- C4: a malformed base-id string makes `async_setup_entry` itself
fail with the parser's exception (the spec's `ConfigError`) before any
`EnOceanGateway` is constructed; setup never completes successfully
with an unparseable base id. -/
theorem async_setup_entry_bad_base_id (inp : SetupInput) (desc : String)
    (gcfg : GatewayConfig) (sp : String) (dt : GatewayDeviceType)
    (hdom : inp.domain = DOMAIN)
    (hids : config_check_gateway inp.gateway_ids = true)
    (hdesc : inp.gateway_description = some desc)
    (hpar : (desc.toList.contains '(' && desc.toList.contains ')') = true)
    (hcfg : inp.gateway_config = some gcfg)
    (hsp : inp.serial_path = some sp)
    (hdt : GatewayDeviceType.find gcfg.device_type = some dt)
    (hlan : ¬(dt = GatewayDeviceType.LAN ∧ gcfg.gateway_address = none))
    (hparse : AddressExpression.parse gcfg.base_id = none) :
    async_setup_entry inp =
      { outcome := SetupOutcome.configError "invalid base id",
        created := 0 } := by
  simp at hpar
  simp [async_setup_entry, hdom, hids, hdesc, hpar, hcfg, hsp, hdt, hlan,
    hparse]

/-- Witness for C4: the base id "not-a-base-id" fails to parse and the
serial gateway setup raises with no gateway constructed. -/
theorem async_setup_entry_bad_base_id_witness :
    async_setup_entry
      { domain := "eltako", gateway_ids := [1, 2],
        gateway_description := some "FGW14USB (00-00-00-01)",
        serial_path := some "/dev/ttyUSB0",
        gateway_config := some
          { device_type := "serial", gateway_address := none,
            base_id := "not-a-base-id" } } =
      { outcome := SetupOutcome.configError "invalid base id",
        created := 0 } :=
  async_setup_entry_bad_base_id _ "FGW14USB (00-00-00-01)"
    { device_type := "serial", gateway_address := none,
      base_id := "not-a-base-id" }
    "/dev/ttyUSB0" GatewayDeviceType.serialTransceiver rfl (by decide) rfl
    (by decide) rfl rfl rfl (by decide) (by decide)

/-- C7: when the gateway registered for a config entry is found under
the entry's description key (as `_set_gateway_to_hass` stored it, so
its `dev_name` is that key), `async_unload_entry` returns True, the
gateway has been unloaded (Transport closed, all listeners cleared) and
its entry is gone from the registry: the same lookup now raises
KeyError (`none`). -/
theorem async_unload_entry_unloads (reg : GatewayRegistry) (desc : String)
    (g : GatewayRecord)
    (h : get_gateway_from_hass reg desc = some g)
    (hname : g.dev_name = desc) :
    async_unload_entry reg desc =
      some (dictDel reg desc,
        { dev_name := g.dev_name, transport_open := false, listeners := [] },
        true)
    ∧ get_gateway_from_hass (dictDel reg desc) desc = none := by
  constructor
  · simp [async_unload_entry, h, GatewayRecord.unload, hname]
  · have hfil :
        (List.filter (fun p => !(p.1 == desc)) reg).find?
          (fun p => p.1 == desc) = none := by
      refine List.find?_eq_none.mpr fun p hp => ?_
      have h2 := (List.mem_filter.mp hp).2
      simp only [Bool.not_eq_true'] at h2
      simp [h2]
    simp [get_gateway_from_hass, dictGet, dictDel, hfil]

/-- Witness for C7: unloading the only registered gateway empties the
registry, closes its transport and clears its listener. -/
theorem async_unload_entry_unloads_witness :
    async_unload_entry
      [("FAM14 (00-00-00-01)",
        { dev_name := "FAM14 (00-00-00-01)", transport_open := true,
          listeners := [⟨⟨[0, 0, 0, 5], none⟩, 7⟩] })]
      "FAM14 (00-00-00-01)" =
      some ([],
        { dev_name := "FAM14 (00-00-00-01)", transport_open := false,
          listeners := [] },
        true) := by
  have h :=
    (async_unload_entry_unloads
      [("FAM14 (00-00-00-01)",
        { dev_name := "FAM14 (00-00-00-01)", transport_open := true,
          listeners := [⟨⟨[0, 0, 0, 5], none⟩, 7⟩] })]
      "FAM14 (00-00-00-01)"
      { dev_name := "FAM14 (00-00-00-01)", transport_open := true,
        listeners := [⟨⟨[0, 0, 0, 5], none⟩, 7⟩] }
      (by decide) rfl).1
  simpa [dictDel] using h

/-- C8: `_set_gateway_to_hass` stores under the gateway's `dev_name`
while `get_gateway_from_hass` looks up under the entry's
gateway-description value, so on a registry without the description key
the retrieval after storing succeeds exactly when `dev_name` equals the
description, and raises KeyError (`none`) whenever they differ. -/
theorem gateway_registry_key_mismatch (reg : GatewayRegistry)
    (g : GatewayRecord) (desc : String)
    (habsent : get_gateway_from_hass reg desc = none) :
    (get_gateway_from_hass (set_gateway_to_hass reg g) desc = some g ↔
      g.dev_name = desc)
    ∧ (g.dev_name ≠ desc →
      get_gateway_from_hass (set_gateway_to_hass reg g) desc = none) := by
  by_cases hn : g.dev_name = desc
  · have hsome :
        get_gateway_from_hass (set_gateway_to_hass reg g) desc = some g := by
      simp [get_gateway_from_hass, set_gateway_to_hass, dictSet, dictGet,
        List.find?_cons_of_pos, hn]
    exact ⟨⟨fun _ => hn, fun _ => hsome⟩, fun hne => absurd hn hne⟩
  · have hfind : (reg.find? fun p => p.1 == desc) = none := by
      have h2 := habsent
      simp only [get_gateway_from_hass, dictGet, Option.map_eq_none'] at h2
      exact h2
    have habs := List.find?_eq_none.mp hfind
    have hnone :
        get_gateway_from_hass (set_gateway_to_hass reg g) desc = none := by
      have hcons :
          ((g.dev_name, g) ::
            reg.filter fun p => !(p.1 == g.dev_name)).find?
              (fun p => p.1 == desc) = none := by
        rw [List.find?_cons_of_neg _ (by simp [hn])]
        exact List.find?_eq_none.mpr
          fun p hp => habs p (List.mem_filter.mp hp).1
      simp [get_gateway_from_hass, set_gateway_to_hass, dictSet, dictGet,
        hcons]
    refine ⟨?_, fun _ => hnone⟩
    rw [hnone]
    simp [hn]

/-- Witness for C8: a gateway whose `dev_name` differs from the config
entry's description is not found again after setup stores it. -/
theorem gateway_registry_key_mismatch_witness :
    get_gateway_from_hass
      (set_gateway_to_hass []
        { dev_name := "FGW14USB (00-00-00-02)", transport_open := true,
          listeners := [] })
      "FAM14 (00-00-00-01)" = none :=
  (gateway_registry_key_mismatch []
    { dev_name := "FGW14USB (00-00-00-02)", transport_open := true,
      listeners := [] }
    "FAM14 (00-00-00-01)" rfl).2 (by decide)

/-- The switch build loop emits only entity-construction and
bad-configuration warning steps: no validation and no adding. -/
lemma buildSwitchEntities_steps (cfgs : List (Option EntityIds)) :
    ∀ st ∈ (buildSwitchEntities cfgs).2,
      isValidateStep st = false ∧ isAddedStep st = false := by
  induction cfgs with
  | nil => intro st hst; simp [buildSwitchEntities] at hst
  | cons c rest ih =>
    intro st hst
    cases c with
    | none =>
        simp [buildSwitchEntities] at hst
        rcases hst with h | h
        · subst h; exact ⟨rfl, rfl⟩
        · exact ih st h
    | some e =>
        simp [buildSwitchEntities] at hst
        rcases hst with h | h
        · subst h; exact ⟨rfl, rfl⟩
        · exact ih st h

/-- Every conflicting pair of the entity list appears in the
validator's report, wherever the two entities sit in the list: the
check does not stop at the first conflict. -/
lemma validate_reports_all_conflicts (l1 : List EntityIds)
    (e1 : EntityIds) (l2 : List EntityIds) (e2 : EntityIds)
    (l3 : List EntityIds)
    (hdev : e2.dev_id = e1.dev_id) (hsend : e2.sender_id = e1.sender_id) :
    (e1, e2) ∈
      validate_actuators_dev_and_sender_id (l1 ++ e1 :: l2 ++ e2 :: l3) := by
  induction l1 with
  | nil =>
      simp only [List.nil_append, validate_actuators_dev_and_sender_id,
        List.mem_append]
      left
      refine List.mem_map.mpr ⟨e2, List.mem_filter.mpr ⟨?_, ?_⟩, rfl⟩
      · simp
      · simp [hdev, hsend]
  | cons a as ih =>
      simp only [List.cons_append, validate_actuators_dev_and_sender_id,
        List.mem_append]
      right
      exact ih

/-- C5 (code bug): the switch platform setup calls
`validate_actuators_dev_and_sender_id` exactly once, on the full built
entity list, after all build steps and before the entities are added,
and the validator reports every conflict in that list (the concrete
conjunct shows two disjoint conflicting pairs both reported).  The
datetime platform setup however raises TypeError out of its
three-argument call to the two-parameter
`get_device_config_for_gateway` before building or validating
anything, so its validation is never invoked. -/
theorem platform_setup_validation_bug (cfgs : List (Option EntityIds))
    (gw : EntityIds) :
    (switch_async_setup_entry cfgs).countP isValidateStep = 1
    ∧ (∃ tr,
        switch_async_setup_entry cfgs =
          tr ++
            [PlatformStep.validated
              (validate_actuators_dev_and_sender_id
                (buildSwitchEntities cfgs).1),
             PlatformStep.logged,
             PlatformStep.added (buildSwitchEntities cfgs).1]
        ∧ ∀ st ∈ tr, isValidateStep st = false ∧ isAddedStep st = false)
    ∧ validate_actuators_dev_and_sender_id
        [⟨⟨[0, 0, 0, 1], none⟩, ⟨[0, 0, 1, 1], none⟩⟩,
         ⟨⟨[0, 0, 0, 2], none⟩, ⟨[0, 0, 1, 2], none⟩⟩,
         ⟨⟨[0, 0, 0, 1], none⟩, ⟨[0, 0, 1, 1], none⟩⟩,
         ⟨⟨[0, 0, 0, 2], none⟩, ⟨[0, 0, 1, 2], none⟩⟩] =
        [(⟨⟨[0, 0, 0, 1], none⟩, ⟨[0, 0, 1, 1], none⟩⟩,
          ⟨⟨[0, 0, 0, 1], none⟩, ⟨[0, 0, 1, 1], none⟩⟩),
         (⟨⟨[0, 0, 0, 2], none⟩, ⟨[0, 0, 1, 2], none⟩⟩,
          ⟨⟨[0, 0, 0, 2], none⟩, ⟨[0, 0, 1, 2], none⟩⟩)]
    ∧ datetime_async_setup_entry gw =
        ([], PlatformOutcome.raisedTypeError) := by
  refine ⟨?_,
    ⟨(buildSwitchEntities cfgs).2, rfl, buildSwitchEntities_steps cfgs⟩,
    by decide, rfl⟩
  have hzero : (buildSwitchEntities cfgs).2.countP isValidateStep = 0 :=
    List.countP_eq_zero.mpr fun st hst => by
      simp [(buildSwitchEntities_steps cfgs st hst).1]
  simp [switch_async_setup_entry, List.countP_append, hzero,
    List.countP_cons, isValidateStep]

/-- C10: `load_value_initially` never leaves a stale restored value:
the persisted state "unknown" yields native value `None` with a normal
return, and for any other state string whose timestamp parse raises,
native value `None` is stored before the exception is re-raised. -/
theorem load_value_initially_no_stale_value
    (strptime : String → Option Nat) (state : String) :
    (state = "unknown" →
      load_value_initially strptime state = LoadResult.ok none true)
    ∧ (state ≠ "unknown" → strptime state = none →
      load_value_initially strptime state = LoadResult.raised none) := by
  constructor
  · intro h
    simp [load_value_initially, h]
  · intro h hp
    simp [load_value_initially, h, hp]

/-- Witness for C10: a restore string whose parse raises leaves native
value `None` behind the re-raised exception. -/
theorem load_value_initially_no_stale_value_witness :
    load_value_initially (fun _ => none) "2024-02-12T23:32:44+00:00" =
      LoadResult.raised none :=
  (load_value_initially_no_stale_value (fun _ => none)
    "2024-02-12T23:32:44+00:00").2 (by decide) rfl

end Eltako
